import Mathlib

/-!
Verification of the LHHegland/logging repository: a shallow embedding of
the `Log` session class (`lib/classes/log/__init__.py`), its execution-info
helpers (`exec_info/__init__.py`, `exec_info/timestamps.py`,
`exec_info/directories.py`), the exception-message formatter
(`exception_message.py`) and the variable-value formatter
(`variable_value_message.py`), together with theorems settling the frozen
claims about the natural-language specification.

Conventions of the embedding:
- Python strings are Lean `String`s; machine floats are modelled exactly as
  unnormalized rationals (`Q`) with an explicit round-to-binary64 step
  (`roundD`) after every float operation, reproducing IEEE-754 semantics.
- Filesystem effects are explicit state passing over `FS`; fallible calls
  return `Except`.
- `os.path` functions are modelled for POSIX separators, and inputs without
  trailing separators, which is how the code under verification uses them.
-/

/-! ## Small string helpers (models of Python / os.path primitives) -/

/-- Split a character list at every occurrence of `sep` (kernel-reducible
model of `str.split(sep)` for a one-character separator). -/
def splitOnChar (sep : Char) : List Char → List (List Char)
  | [] => [[]]
  | c :: rest =>
    match splitOnChar sep rest with
    | [] => [[]]
    | cur :: others => if c = sep then [] :: cur :: others else (c :: cur) :: others

/-- Join strings with a separator, as `sep.join(parts)` does. -/
def joinSep (sep : String) : List String → String
  | [] => ""
  | [x] => x
  | x :: xs => x ++ sep ++ joinSep sep xs

/-- Model of `os.path.join(a, b)` for a relative `b`: the two components
separated by the POSIX separator. -/
def pathJoin (a b : String) : String := a ++ "/" ++ b

/-- Model of `os.path.dirname`: everything before the last separator. -/
def pyDirname (p : String) : String :=
  joinSep "/" (((splitOnChar '/' p.data).map (fun l => (⟨l⟩ : String))).dropLast)

/-- Model of `os.path.basename`: everything after the last separator. -/
def pyBasename (p : String) : String :=
  (((splitOnChar '/' p.data).map (fun l => (⟨l⟩ : String))).getLastD "")

/-- Model of `os.path.splitext(...)[0]`: strip the extension after the last
dot, if any. -/
def pySplitextStem (b : String) : String :=
  let parts := (splitOnChar '.' b.data).map (fun l => (⟨l⟩ : String))
  if parts.length ≤ 1 then b else joinSep "." parts.dropLast

/-- Model of `os.extsep`. -/
def os_extsep : String := "."

/-- Uppercase one ASCII character, as `str.upper` does on ASCII input. -/
def pyCharUpper (c : Char) : Char :=
  if 'a' ≤ c ∧ c ≤ 'z' then Char.ofNat (c.toNat - 32) else c

/-- Model of `str.upper()` on ASCII text. -/
def pyUpper (s : String) : String := ⟨s.data.map pyCharUpper⟩

/-- Left-pad the decimal rendering of `n` with zeros to width `w`, as the
`%02d`-style conversions of `strftime` and `isoformat` do. -/
def padNum (w : Nat) (n : Nat) : String :=
  let s := toString n
  ⟨List.replicate (w - s.length) '0'⟩ ++ s

/-- Model of `str(list_of_strings)`: Python renders the repr of each
element, comma-separated inside brackets. -/
def pyStrListRepr (xs : List String) : String :=
  "[" ++ joinSep ", " (xs.map (fun a => "\x27" ++ a ++ "\x27")) ++ "]"

/-! ## Exact model of IEEE-754 binary64 arithmetic

Python floats are binary64 values; every binary64 value is a rational
number, and every Python float operation is the exact rational operation
followed by rounding to the nearest representable value (ties to even).
`Q` is an unnormalized rational (no gcd), so all operations reduce inside
the kernel. -/

/-- Unnormalized rational number; `den` is always positive in the values
this development constructs. -/
structure Q where
  num : Int
  den : Nat
deriving DecidableEq, Repr

/-- Embed an integer. -/
def qOfInt (a : Int) : Q := ⟨a, 1⟩

/-- Exact rational addition. -/
def qAdd (x y : Q) : Q := ⟨x.num * y.den + y.num * x.den, x.den * y.den⟩

/-- Exact rational subtraction. -/
def qSub (x y : Q) : Q := ⟨x.num * y.den - y.num * x.den, x.den * y.den⟩

/-- Exact rational multiplication. -/
def qMul (x y : Q) : Q := ⟨x.num * y.num, x.den * y.den⟩

/-- Exact rational inverse (sign moves to the numerator). -/
def qInv (x : Q) : Q :=
  if 0 ≤ x.num then ⟨(x.den : Int), x.num.toNat⟩ else ⟨-(x.den : Int), (-x.num).toNat⟩

/-- Exact rational division. -/
def qDiv (x y : Q) : Q := qMul x (qInv y)

/-- Strict comparison by cross-multiplication. -/
def qLt (x y : Q) : Bool := x.num * y.den < y.num * x.den

/-- Non-strict comparison by cross-multiplication. -/
def qLe (x y : Q) : Bool := x.num * y.den ≤ y.num * x.den

/-- Floor of a rational. -/
def qFloor (x : Q) : Int := x.num.fdiv x.den

/-- Truncation toward zero, matching Python `int()` applied to a float. -/
def qTrunc (x : Q) : Int := x.num.tdiv x.den

/-- Negation. -/
def qNeg (x : Q) : Q := ⟨-x.num, x.den⟩

/-- Absolute value. -/
def qAbs (x : Q) : Q := ⟨if x.num < 0 then -x.num else x.num, x.den⟩

/-- The power 2^e as an exact rational, for integer e. -/
def pow2q (e : Int) : Q :=
  if 0 ≤ e then ⟨(2:Int)^e.toNat, 1⟩ else ⟨1, (2:Nat)^(-e).toNat⟩

/-- Structural base-2 logarithm with fuel, so the kernel can evaluate it. -/
def log2fuel : Nat → Nat → Nat
  | 0, _ => 0
  | fuel + 1, n => if n < 2 then 0 else log2fuel fuel (n / 2) + 1

/-- Floor of log2 of a positive rational: a floor-based candidate followed
by an exactness correction against powers of two. -/
def ilog2q (q : Q) : Int :=
  let e0 : Int :=
    if qLe (qOfInt 1) q then (log2fuel 1100 (qFloor q).toNat : Int)
    else -(log2fuel 1100 (qFloor (qInv q)).toNat : Int)
  if qLe (pow2q (e0 + 1)) q then e0 + 1
  else if qLe (pow2q e0) q then e0
  else e0 - 1

/-- Round to the nearest integer, ties to even. -/
def roundHalfEven (q : Q) : Int :=
  let n := qFloor q
  let f := qSub q (qOfInt n)
  if qLt f ⟨1, 2⟩ then n
  else if qLt ⟨1, 2⟩ f then n + 1
  else if n.emod 2 = 0 then n else n + 1

/-- Round an exact rational to the nearest IEEE-754 binary64 value
(round to nearest, ties to even). Overflow and subnormals do not occur in
the ranges this development evaluates. -/
def roundD (q : Q) : Q :=
  if q.num = 0 then qOfInt 0
  else
    let neg := q.num < 0
    let a := qAbs q
    let e := ilog2q a
    let m := roundHalfEven (qMul a (pow2q (52 - e)))
    let r := qMul (qOfInt m) (pow2q (e - 52))
    if neg then qNeg r else r

/-- Python float addition: exact sum rounded to binary64. -/
def pyAddF (a b : Q) : Q := roundD (qAdd a b)

/-- Python float subtraction: exact difference rounded to binary64. -/
def pySubF (a b : Q) : Q := roundD (qSub a b)

/-- Python float multiplication: exact product rounded to binary64. -/
def pyMulF (a b : Q) : Q := roundD (qMul a b)

/-- Python float true division: exact quotient rounded to binary64. -/
def pyDivF (a b : Q) : Q := roundD (qDiv a b)

/-- Python float floor division `a // b`: the floor of the quotient, as a
float; exact at the small integer magnitudes this development evaluates. -/
def pyFloorDivF (a b : Q) : Q := qOfInt (qFloor (qDiv a b))

/-! ## Model of `datetime.datetime` (UTC-aware values) -/

/-- A UTC timestamp with microsecond resolution, modelling an aware
`datetime.datetime` in the UTC zone. -/
structure Datetime where
  year : Nat
  month : Nat
  day : Nat
  hour : Nat
  minute : Nat
  second : Nat
  microsecond : Nat
deriving DecidableEq, Repr

/-- Days since 1970-01-01 of a Gregorian civil date (standard
days-from-civil algorithm, as `datetime.date.toordinal` induces). -/
def daysFromCivil (y m d : Nat) : Int :=
  let yAdj : Int := (y : Int) - (if m ≤ 2 then 1 else 0)
  let era : Int := (if 0 ≤ yAdj then yAdj else yAdj - 399).tdiv 400
  let yoe : Int := yAdj - era * 400
  let mp : Int := ((m : Int) + 9).emod 12
  let doy : Int := (153 * mp + 2).tdiv 5 + (d : Int) - 1
  let doe : Int := yoe * 365 + yoe.tdiv 4 - yoe.tdiv 100 + doy
  era * 146097 + doe - 719468

/-- Microseconds since the epoch; the difference of two of these is the
`timedelta` between two aware datetimes, in microseconds. -/
def epochMicro (t : Datetime) : Int :=
  ((daysFromCivil t.year t.month t.day) * 86400
    + (t.hour : Int) * 3600 + (t.minute : Int) * 60 + (t.second : Int)) * 1000000
    + (t.microsecond : Int)

/-- Model of `datetime.isoformat()` for a UTC-aware value: the microsecond
part is printed only when nonzero, and the offset is always `+00:00`. -/
def isoformat (t : Datetime) : String :=
  padNum 4 t.year ++ "-" ++ padNum 2 t.month ++ "-" ++ padNum 2 t.day ++ "T"
    ++ padNum 2 t.hour ++ ":" ++ padNum 2 t.minute ++ ":" ++ padNum 2 t.second
    ++ (if t.microsecond = 0 then "" else "." ++ padNum 6 t.microsecond)
    ++ "+00:00"

/-- Model of `strftime("%Y%m%d%H%M%S")`. -/
def strftime_YmdHMS (t : Datetime) : String :=
  padNum 4 t.year ++ padNum 2 t.month ++ padNum 2 t.day
    ++ padNum 2 t.hour ++ padNum 2 t.minute ++ padNum 2 t.second

/-! ## `exec_info.timestamps._Timestamps` -/

/-- Source `_Timestamps`. In the source `end` is `None` until
`Log.terminate` assigns it; this embedding models the states in which the
field is set (the only states in which the code reads it), and names the
field `endTime` because `end` is reserved in Lean. -/
structure Timestamps where
  start : Datetime
  endTime : Datetime
deriving DecidableEq, Repr

/-- Core of `_Timestamps._get_elapsed`, as a function of the timedelta
`end - start` in microseconds. Mirrors the source line by line:
`total_seconds()` is the correctly rounded float `micro / 10**6`, each
unit is truncated with `int(...)`, and every float operation rounds to
binary64. -/
def elapsedFromMicro (td_micro : Int) : String :=
  let elapsed_seconds := pyDivF (qOfInt td_micro) (qOfInt 1000000)
  let whole_minutes : Int := qTrunc (pyFloorDivF elapsed_seconds (qOfInt 60))
  let included₁ : Int := 60 * whole_minutes
  let whole_seconds : Int := qTrunc (pySubF elapsed_seconds (qOfInt included₁))
  let included₂ : Int := included₁ + whole_seconds
  let whole_milliseconds : Int := qTrunc (pyMulF (pySubF elapsed_seconds (qOfInt included₂)) (qOfInt 1000))
  let included₃ : Q := pyAddF (qOfInt included₂) (pyDivF (qOfInt whole_milliseconds) (qOfInt 1000))
  let whole_microseconds : Int := qTrunc (pyMulF (pySubF elapsed_seconds included₃) (qOfInt 1000000))
  toString whole_minutes ++ "m " ++ toString whole_seconds ++ "s " ++
    toString whole_milliseconds ++ "ms " ++ toString whole_microseconds ++ "μs"

/-- Source `_Timestamps._get_elapsed`: the elapsed-time message between the
start and end times. -/
def _get_elapsed (ts : Timestamps) : String :=
  elapsedFromMicro (epochMicro ts.endTime - epochMicro ts.start)

/-! ## `exec_info.directories._Directories` and `exec_info._ExecInfo` -/

/-- Source `_Directories`. `initial` is assigned by `set_info` before any
read, so it is modelled as a plain string; `final` keeps its `None` state
as `Option`. -/
structure Directories where
  initial : String
  final : Option String
deriving DecidableEq, Repr

/-- Source `_ExecInfo`: module execution information for the log file.
The environment-derived fields (`_user`, `_system`, `_python_version`,
`sys.argv[1:]`) are opaque strings captured at construction. -/
structure ExecInfo where
  module_basename : String
  arguments : List String
  directories : Directories
  user : String
  system : String
  python_version : String
  timestamps : Timestamps
deriving DecidableEq, Repr

/-- Source `_ExecInfo.set_info`: split the calling module path into
directory and extension-less base name, and capture the argument vector. -/
def set_info (user system python_version : String) (argv_tail : List String)
    (ts : Timestamps) (module_filepathname : String) : ExecInfo :=
  { module_basename := pySplitextStem (pyBasename module_filepathname)
  , arguments := argv_tail
  , directories := { initial := pyDirname module_filepathname, final := none }
  , user := user
  , system := system
  , python_version := python_version
  , timestamps := ts }

/-- Source `_ExecInfo._get_filepathname`: log file path and name as module
basename plus execution start timestamp with log extension, under the
initial `logs` directory until a final directory is set. -/
def _get_filepathname (info : ExecInfo) : String :=
  let dirpath :=
    match info.directories.final with
    | none => pathJoin info.directories.initial "logs"
    | some d => d
  let basename_ext :=
    info.module_basename ++ "_" ++ strftime_YmdHMS info.timestamps.start ++ os_extsep ++ "log"
  pathJoin dirpath basename_ext

/-- Source `_ExecInfo._get_module_filepathname`. -/
def _get_module_filepathname (info : ExecInfo) : String :=
  pathJoin info.directories.initial (info.module_basename ++ os_extsep ++ "py")

/-! ## The severity-routing pipeline of `Log.setup` -/

/-- The numeric value of `logging.WARNING` in the standard logging
facility, hard-coded as `30` at the two filter definitions in the
source. -/
def logging_WARNING : Nat := 30

/-- A log record as the handlers and formatters see it: the standard
`LogRecord` attributes the four format strings of `Log.setup` mention. -/
structure LogRecord where
  levelno : Nat
  levelname : String
  message : String
  asctime : String
  name : String
  threadName : String
  processName : String
  pathname : String
  module : String
  funcName : String
  lineno : Nat
  exc_info : String
  cntxt_flag : String
deriving DecidableEq, Repr

/-- Source `filter_fyi` (defined inside `Log.setup`): accept records with
level strictly below the warning level. -/
def filter_fyi (record : LogRecord) : Bool := record.levelno < 30

/-- Source `filter_alert` (defined inside `Log.setup`): accept records with
level greater than or equal to the warning level. -/
def filter_alert (record : LogRecord) : Bool := 30 ≤ record.levelno

/-- Source `filter_add_cntxt`: stamp the record with the contextual color
flag for its level name and accept it. A filter both may mutate the record
and returns its verdict, so filters are modelled as
`LogRecord → LogRecord × Bool`. -/
def filter_add_cntxt (record : LogRecord) : LogRecord × Bool :=
  let flag :=
    match record.levelname with
    | "DEBUG" => "⚪"
    | "INFO" => "⬛"
    | "WARNING" => "🟧"
    | "ERROR" => "🟥"
    | "CRITICAL" => "🟥🟥"
    | _ => ""
  ({ record with cntxt_flag := flag }, true)

/-- Lift a pure boolean filter to the mutating filter shape. -/
def boolFilter (f : LogRecord → Bool) : LogRecord → LogRecord × Bool :=
  fun r => (r, f r)

/-- Source format `fmt_stderr_fyi` applied to a record (no contextual
flag). -/
def fmt_stderr_fyi (r : LogRecord) : String :=
  r.message ++ " \n" ++ r.asctime ++ " - " ++ r.name ++ " - " ++ r.levelname

/-- Source format `fmt_stderr_alert` applied to a record (no contextual
flag; extended diagnostic context). -/
def fmt_stderr_alert (r : LogRecord) : String :=
  "\n" ++ r.message ++ " \n" ++ r.asctime ++ " - " ++ r.name ++ " - " ++ r.levelname
    ++ " \n" ++ r.threadName ++ " → " ++ r.processName ++ " \n" ++ r.pathname
    ++ " \n→ " ++ r.module ++ " → " ++ r.funcName ++ " @ " ++ toString r.lineno
    ++ " \nEXCEPTION INFO: " ++ r.exc_info ++ " \n"

/-- Source format `fmt_file_fyi` applied to a record (leads with the
contextual flag). -/
def fmt_file_fyi (r : LogRecord) : String :=
  "\n" ++ r.cntxt_flag ++ " " ++ r.message ++ " \n" ++ r.asctime ++ " - " ++ r.name
    ++ " - " ++ r.levelname ++ " \n"

/-- Source format `fmt_file_alert` applied to a record (contextual flag
plus extended diagnostic context). -/
def fmt_file_alert (r : LogRecord) : String :=
  "\n" ++ r.cntxt_flag ++ " " ++ r.message ++ " \n" ++ r.asctime ++ " - " ++ r.name
    ++ " - " ++ r.levelname ++ " \n" ++ r.threadName ++ " → " ++ r.processName
    ++ " \n" ++ r.pathname ++ " \n→ " ++ r.module ++ " → " ++ r.funcName ++ " @ "
    ++ toString r.lineno ++ " \nEXCEPTION INFO: " ++ r.exc_info ++ " \n"

/-- A physical destination: the log file opened in append mode, or the
standard error stream. -/
inductive Dest where
  | file (path : String)
  | stderr
deriving DecidableEq, Repr

/-- A configured handler: minimum level, ordered filter chain, format, and
destination. -/
structure Handler where
  level : Nat
  filters : List (LogRecord → LogRecord × Bool)
  fmt : LogRecord → String
  dest : Dest

/-- Run a filter chain the way `logging.Filterer.filter` does: in order,
threading record mutations, stopping at the first rejection. -/
def runFilters : List (LogRecord → LogRecord × Bool) → LogRecord → LogRecord × Bool
  | [], r => (r, true)
  | f :: fs, r =>
    let (r₁, ok) := f r
    if ok then runFilters fs r₁ else (r₁, false)

/-- A handler handles a record when its level threshold is met and every
filter accepts; the emitted text is the handler format applied to the
(possibly filter-enriched) record. -/
def handlerEmit (h : Handler) (r : LogRecord) : Option String :=
  if h.level ≤ r.levelno then
    let (r₁, ok) := runFilters h.filters r
    if ok then some (h.fmt r₁) else none
  else none

/-- The fyi file handler built by `Log.setup` when a file path is given:
level DEBUG, `filter_fyi` then `filter_add_cntxt`, file-fyi format. -/
def handler_file_fyi (p : String) : Handler :=
  ⟨10, [boolFilter filter_fyi, filter_add_cntxt], fmt_file_fyi, .file p⟩

/-- The alert file handler built by `Log.setup` when a file path is given:
level WARNING, `filter_alert` then `filter_add_cntxt`, file-alert
format. -/
def handler_file_alert (p : String) : Handler :=
  ⟨30, [boolFilter filter_alert, filter_add_cntxt], fmt_file_alert, .file p⟩

/-- The fyi stderr handler built by `Log.setup` when no file path is
given. -/
def handler_stderr_fyi : Handler :=
  ⟨10, [boolFilter filter_fyi], fmt_stderr_fyi, .stderr⟩

/-- The alert stderr handler `Log.setup` always builds. -/
def handler_stderr_alert : Handler :=
  ⟨30, [boolFilter filter_alert], fmt_stderr_alert, .stderr⟩

/-- The root logger as `Log.setup` configures it: logger level DEBUG and
the handler set chosen by the presence of a log file path. -/
structure Logger where
  level : Nat
  handlers : List Handler

/-- Source `Log.setup`: with a file path, attach the fyi file handler, the
alert file handler, and the alert stderr handler; without one, attach the
fyi stderr handler and the alert stderr handler. The logger level is set
to DEBUG. -/
def setup (filepathname : Option String) : Logger :=
  match filepathname with
  | none => ⟨10, [handler_stderr_fyi, handler_stderr_alert]⟩
  | some p => ⟨10, [handler_file_fyi p, handler_file_alert p, handler_stderr_alert]⟩

/-- Deliver one record through the configured logger: if the logger level
admits it, every handler whose threshold and filters accept it renders it
to its destination. -/
def loggerEmit (lg : Logger) (r : LogRecord) : List (Dest × String) :=
  if lg.level ≤ r.levelno then
    lg.handlers.filterMap (fun h => (handlerEmit h r).map (fun s => (h.dest, s)))
  else []

/-! ## `exception_message.ExceptionMessageFormatted` -/

/-- Source `ExceptionMessageFormatted`: title, details and suggestions of a
formatted exception message. -/
structure ExceptionMessageFormatted where
  title : String
  details : String
  suggestions : String
deriving DecidableEq, Repr

/-- Source `ExceptionMessageFormatted.get`: uppercase title line, then a
DETAILS block when `details` is non-empty, then a SUGGESTIONS block when
`suggestions` is non-empty, then the fixed trailer. -/
def ExceptionMessageFormatted.get (m : ExceptionMessageFormatted) : String :=
  let message := pyUpper m.title ++ "\n"
  let message := if m.details ≠ "" then message ++ ("DETAILS:\n" ++ m.details ++ "\n\n") else message
  let message := if m.suggestions ≠ "" then message ++ ("SUGGESTIONS:\n" ++ m.suggestions ++ "\n\n") else message
  message ++ "TRACING INFORMATION APPEARS BELOW:"

/-! ## `variable_value_message` -/

/-- A Python runtime value, as far as the `isinstance` test and the string
renderings of `variable_value_message.get` observe it. Float payloads are
carried as their `str()` rendering, which is all this module reads of
them. -/
inductive PyValue where
  | none
  | bool (b : Bool)
  | int (n : Int)
  | float (reprS : String)
  | str (s : String)
  | bytes (payload : String)
  | list (xs : List PyValue)
  | tuple (xs : List PyValue)
  | dict (kvs : List (PyValue × PyValue))
  | obj (className : String) (reprS : String)

/-- The text of `type(value)` for each value shape, as Python prints it. -/
def typeName : PyValue → String
  | .none => "<class \x27NoneType\x27>"
  | .bool _ => "<class \x27bool\x27>"
  | .int _ => "<class \x27int\x27>"
  | .float _ => "<class \x27float\x27>"
  | .str _ => "<class \x27str\x27>"
  | .bytes _ => "<class \x27bytes\x27>"
  | .list _ => "<class \x27list\x27>"
  | .tuple _ => "<class \x27tuple\x27>"
  | .dict _ => "<class \x27dict\x27>"
  | .obj c _ => "<class \x27" ++ c ++ "\x27>"

mutual

/-- Model of Python `repr` on the embedded values (string escaping inside
quotes is not modelled). -/
def pyRepr : PyValue → String
  | .none => "None"
  | .bool b => if b then "True" else "False"
  | .int n => toString n
  | .float r => r
  | .str s => "\x27" ++ s ++ "\x27"
  | .bytes p => "b\x27" ++ p ++ "\x27"
  | .list xs => "[" ++ pyReprList xs ++ "]"
  | .tuple [x] => "(" ++ pyRepr x ++ ",)"
  | .tuple xs => "(" ++ pyReprList xs ++ ")"
  | .dict kvs => "\x7b" ++ pyReprPairs kvs ++ "\x7d"
  | .obj _ r => r
termination_by v => sizeOf v

/-- Comma-separated reprs of a list of values. -/
def pyReprList : List PyValue → String
  | [] => ""
  | [x] => pyRepr x
  | x :: xs => pyRepr x ++ ", " ++ pyReprList xs
termination_by xs => sizeOf xs

/-- Comma-separated `key: value` reprs of dict items, in insertion
order. -/
def pyReprPairs : List (PyValue × PyValue) → String
  | [] => ""
  | [(k, v)] => pyRepr k ++ ": " ++ pyRepr v
  | (k, v) :: kvs => pyRepr k ++ ": " ++ pyRepr v ++ ", " ++ pyReprPairs kvs
termination_by kvs => sizeOf kvs

end

/-- Model of Python `str`: identity on strings, `repr` otherwise, which is
what an f-string interpolation applies. -/
def pyStr : PyValue → String
  | .str s => s
  | v => pyRepr v

/-- The `isinstance(value, (bool, bytes, int, float, str, list, tuple,
type(None)))` test at the head of `variable_value_message.get`. -/
def isPrimitiveIsh : PyValue → Bool
  | .none | .bool _ | .int _ | .float _ | .str _ | .bytes _ | .list _ | .tuple _ => true
  | _ => false

/-- The configuration of the module-level `pprint.PrettyPrinter`. -/
structure PPConfig where
  indent : Nat
  width : Nat
  compact : Bool
  sort_dicts : Bool
deriving DecidableEq, Repr

/-- The module-level printer `pp = pprint.PrettyPrinter(indent=4,
width=160, compact=False, sort_dicts=False)`. -/
def pp : PPConfig := ⟨4, 160, false, false⟩

/-- Source `variable_value_message.get`. The standard-library pretty
printer is an external collaborator, passed in as a function of the
configured printer; the module applies it to the configuration `pp`. -/
def variable_value_message_get (pformat : PPConfig → PyValue → String)
    (name : String) (value : PyValue) : String :=
  if isPrimitiveIsh value then
    "🔎VarVal🔍 " ++ name ++ " (" ++ typeName value ++ "): " ++ pyStr value
  else
    "🔎VarVal🔍 " ++ name ++ " (" ++ typeName value ++ "):\n" ++ pformat pp value

/-! ## Filesystem model and the `Log` session lifecycle -/

/-- Error shapes of the `os` and `shutil` calls the session makes. -/
inductive OSErr where
  | fileNotFound
  | fileExists
  | permissionDenied
deriving DecidableEq, Repr

/-- A small filesystem: the set of existing directories, the directories
that refuse writes, and the files with their contents. -/
structure FS where
  dirs : List String
  readonlyDirs : List String
  files : List (String × String)
deriving DecidableEq, Repr

/-- Model of `os.path.exists`: the path names an existing directory or
file. -/
def os_path_exists (p : String) (fs : FS) : Bool :=
  fs.dirs.contains p || (fs.files.map Prod.fst).contains p

/-- Model of `os.mkdir`: create exactly one directory; fail if the path
already exists, or when its parent directory is missing (parents are NOT
created — that would be `os.makedirs`). -/
def os_mkdir (p : String) (fs : FS) : Except OSErr FS :=
  if os_path_exists p fs then .error .fileExists
  else if fs.dirs.contains (pyDirname p) then .ok { fs with dirs := p :: fs.dirs }
  else .error .fileNotFound

/-- First file content stored at a path. -/
def lookupFile (p : String) (files : List (String × String)) : Option String :=
  (files.find? (fun e => e.1 == p)).map Prod.snd

/-- Model of `shutil.copy(src, dst)` as the session uses it: `src` must
exist; when `dst` is an existing directory the file is copied into it
under its base name, a read-only directory raising `PermissionError`;
otherwise `dst` is taken as a file name whose parent directory must
exist. The source file is left in place. -/
def shutil_copy (src dst : String) (fs : FS) : Except OSErr FS :=
  match lookupFile src fs.files with
  | Option.none => .error .fileNotFound
  | Option.some content =>
    if fs.dirs.contains dst then
      if fs.readonlyDirs.contains dst then .error .permissionDenied
      else .ok { fs with files := (pathJoin dst (pyBasename src), content) :: fs.files }
    else if fs.dirs.contains (pyDirname dst) then
      if fs.readonlyDirs.contains (pyDirname dst) then .error .permissionDenied
      else .ok { fs with files := (dst, content) :: fs.files }
    else .error .fileNotFound

/-- Source `Log._get_header`: the run header banner. -/
def _get_header (info : ExecInfo) : String :=
  "BEGIN LOGGING...\n"
    ++ "START: " ++ isoformat info.timestamps.start ++ "\n"
    ++ "USER: " ++ info.user ++ "\n"
    ++ "OPERATING SYSTEM: " ++ info.system ++ "\n"
    ++ "PYTHON VERSION:: " ++ info.python_version ++ "\n"
    ++ "ROOT: " ++ _get_module_filepathname info ++ "\n"
    ++ "ARGUMENTS: " ++ pyStrListRepr info.arguments ++ "\n"
    ++ "LOG: " ++ _get_filepathname info ++ "\n"
    ++ "========== STARTING =========="

/-- Source `Log._get_footer`: ENDING separator, the final-directory note,
the resolved log path, end and start timestamps, and the elapsed time. -/
def _get_footer (info : ExecInfo) : String :=
  let footer := "========== ENDING ==========\n"
  let footer := footer ++
    (match info.directories.final with
     | none => "*** Final log directory not specified. ***\n"
     | some _ => "Log copied to specified directory.\n")
  footer
    ++ "\n" ++ "LOG: " ++ _get_filepathname info ++ "\n"
    ++ "\n" ++ "  END: " ++ isoformat info.timestamps.endTime ++ "\n"
    ++ "- START: " ++ isoformat info.timestamps.start ++ "\n"
    ++ "= ELAPSED: " ++ _get_elapsed info.timestamps

/-- The emission sequence a lifecycle step performs: pairs of numeric
level and message, in order. -/
abbrev Emitted := List (Nat × String)

/-- Source `Log.__post_init__`: capture execution info, then create the
`logs` directory next to the module when missing (via `os.mkdir`, which
needs the parent to exist) and, in that case only, follow the header with
one WARNING notice built by `ExceptionMessageFormatted`. `initialize`
(setup plus the INFO header) is inlined at its two call sites; the handler
wiring it performs is the `setup` function above. -/
def Log_post_init (module_filepathname : String)
    (user system python_version : String) (argv_tail : List String)
    (start : Datetime) (endTime : Datetime) (fs : FS) :
    Except OSErr (ExecInfo × FS × Emitted) :=
  let info := set_info user system python_version argv_tail ⟨start, endTime⟩ module_filepathname
  let logs_dirpathname := pathJoin info.directories.initial "logs"
  if os_path_exists logs_dirpathname fs then
    .ok (info, fs, [(20, _get_header info)])
  else
    match os_mkdir logs_dirpathname fs with
    | .error e => .error e
    | .ok fs₁ =>
      let msg : ExceptionMessageFormatted :=
        { title := "LOGS DIRECTORY CREATED"
        , details :=
            "Module uses logging and needs a log directory.\n"
              ++ "A directory for logs did not exist in " ++ info.directories.initial ++ ".\n"
              ++ "Therefore, the logger created " ++ logs_dirpathname ++ "."
        , suggestions := "" }
      .ok (info, fs₁, [(20, _get_header info), (30, msg.get)])

/-- The observable outcome of `Log.terminate`: the updated execution info,
the records emitted (the INFO footer), the path handed to `shutil.copy`
when a copy is attempted, and the filesystem outcome (the copy error, when
one occurs, propagates to the caller unhandled). -/
structure TerminateResult where
  info : ExecInfo
  records : Emitted
  copySrc : Option String
  fsResult : Except OSErr FS
deriving Repr

/-- Source `Log.terminate`: set the end timestamp, compute the log file
path (before the final directory is recorded), record the final directory,
emit the footer at INFO, then — only when a final directory was given —
copy the log file there, propagating any failure. -/
def terminate (now : Datetime) (info : ExecInfo) (fs : FS)
    (dirpathname : Option String) : TerminateResult :=
  let info₁ := { info with timestamps := { info.timestamps with endTime := now } }
  let logfile_pathname := _get_filepathname info₁
  let info₂ := { info₁ with directories := { info₁.directories with final := dirpathname } }
  let records : Emitted := [(20, _get_footer info₂)]
  match dirpathname with
  | none => ⟨info₂, records, none, .ok fs⟩
  | some d => ⟨info₂, records, some logfile_pathname, shutil_copy logfile_pathname d fs⟩

/-! ## Shared helper lemmas -/

/-- Two strings with the same character data are equal. -/
theorem stringDataInj {a b : String} (h : a.data = b.data) : a = b := by
  cases a; cases b; exact congrArg String.mk h

/-- Joining different directories with the same base name gives different
paths. -/
theorem pathJoin_left_inj {a b c : String} (h : pathJoin a c = pathJoin b c) : a = b := by
  have hd := congrArg String.data h
  simp only [pathJoin, String.data_append] at hd
  exact stringDataInj (List.append_cancel_right (List.append_cancel_right hd))

/-- The spec's `LogDestinationPath` (§3): the string
`<directory>/<moduleBaseName>_<startTime formatted YYYYMMDDHHMMSS>.log`,
where the directory is `<sourceDirectory>/logs` until `finalDirectory` is
set, and `finalDirectory` afterwards. -/
def specLogDestinationPath (info : ExecInfo) : String :=
  let directory :=
    match info.directories.final with
    | none => pathJoin info.directories.initial "logs"
    | some d => d
  directory ++ "/" ++ info.module_basename ++ "_"
    ++ strftime_YmdHMS info.timestamps.start ++ ".log"

/-- The one-time notice `Log.__post_init__` logs after creating the logs
directory. -/
def post_init_notice (initial : String) : String :=
  ExceptionMessageFormatted.get
    { title := "LOGS DIRECTORY CREATED"
    , details :=
        "Module uses logging and needs a log directory.\n"
          ++ "A directory for logs did not exist in " ++ initial ++ ".\n"
          ++ "Therefore, the logger created " ++ pathJoin initial "logs" ++ "."
    , suggestions := "" }

/-! ## Claims -/

/-- C1: For every severity level, the FYI predicate and the ALERT
predicate are mutually exclusive and jointly exhaustive: a record is FYI
iff its numeric rank is strictly below WARNING's, ALERT iff its rank is
at least WARNING's, so exactly one of the two accepts any record. -/
theorem C1_fyi_alert_partition :
    ∀ r : LogRecord,
      (filter_fyi r = true ∨ filter_alert r = true) ∧
      ¬(filter_fyi r = true ∧ filter_alert r = true) ∧
      (filter_fyi r = true ↔ r.levelno < logging_WARNING) ∧
      (filter_alert r = true ↔ logging_WARNING ≤ r.levelno) := by
  refine fun r => ⟨?_, ?_, ?_, ?_⟩ <;>
    · simp [filter_fyi, filter_alert, logging_WARNING]
      try omega

/-- C4: The resolved log file path is
`<directory>/<moduleBaseName>_<startTime YYYYMMDDHHMMSS>.log` with the
directory `<sourceDirectory>/logs` while `finalDirectory` is unset and
`finalDirectory` once set, the timestamp always taken from the stored
start time; resolving twice without mutating the inputs yields the
identical path (the path depends on nothing else in the state). -/
theorem C4_log_destination_path :
    ∀ info : ExecInfo,
      _get_filepathname info = specLogDestinationPath info ∧
      (∀ info₂ : ExecInfo,
        info₂.directories = info.directories →
        info₂.module_basename = info.module_basename →
        info₂.timestamps.start = info.timestamps.start →
        _get_filepathname info₂ = _get_filepathname info) := by
  intro info
  constructor
  · cases h : info.directories.final <;>
      simp [_get_filepathname, specLogDestinationPath, pathJoin, os_extsep, h,
        String.append_assoc]
  · intro info₂ h₁ h₂ h₃
    simp [_get_filepathname, h₁, h₂, h₃]

/-- C4 witness: a state that differs only in end time, user and arguments
resolves to the same concrete path, which matches the spec shape. -/
theorem C4_log_destination_path_witness :
    _get_filepathname
        ⟨"test", ["x"], ⟨"/app", none⟩, "other", "sys2", "3.13",
          ⟨⟨2026, 1, 1, 10, 0, 0, 0⟩, ⟨2026, 1, 2, 3, 4, 5, 6⟩⟩⟩ =
      _get_filepathname
        ⟨"test", [], ⟨"/app", none⟩, "user", "sys", "3.12",
          ⟨⟨2026, 1, 1, 10, 0, 0, 0⟩, ⟨2026, 1, 1, 10, 0, 0, 0⟩⟩⟩ ∧
    _get_filepathname
        ⟨"test", [], ⟨"/app", none⟩, "user", "sys", "3.12",
          ⟨⟨2026, 1, 1, 10, 0, 0, 0⟩, ⟨2026, 1, 1, 10, 0, 0, 0⟩⟩⟩ =
      specLogDestinationPath
        ⟨"test", [], ⟨"/app", none⟩, "user", "sys", "3.12",
          ⟨⟨2026, 1, 1, 10, 0, 0, 0⟩, ⟨2026, 1, 1, 10, 0, 0, 0⟩⟩⟩ :=
  ⟨(C4_log_destination_path _).2 _ rfl rfl rfl, (C4_log_destination_path _).1⟩

/-- C6 counterexample: with a bare title the rendering has NO blank line
between the uppercase title line and the trailer, contradicting the
claimed exact output. -/
theorem C6_counterexample :
    ExceptionMessageFormatted.get ⟨"x", "", ""⟩ ≠
      "X\n\nTRACING INFORMATION APPEARS BELOW:" := by decide

/-- C6 (amended): with a non-empty title and empty details and
suggestions, the rendering is exactly the uppercase title line followed
directly by the fixed trailer line (no blank line between); a DETAILS
section appears iff details is non-empty and a SUGGESTIONS section
appears iff suggestions is non-empty. -/
theorem C6_banner_sections :
    ∀ t d s : String,
      (ExceptionMessageFormatted.get ⟨t, "", ""⟩ =
        pyUpper t ++ "\n" ++ "TRACING INFORMATION APPEARS BELOW:") ∧
      (d ≠ "" → ExceptionMessageFormatted.get ⟨t, d, ""⟩ =
        pyUpper t ++ "\n" ++ ("DETAILS:\n" ++ d ++ "\n\n")
          ++ "TRACING INFORMATION APPEARS BELOW:") ∧
      (s ≠ "" → ExceptionMessageFormatted.get ⟨t, "", s⟩ =
        pyUpper t ++ "\n" ++ ("SUGGESTIONS:\n" ++ s ++ "\n\n")
          ++ "TRACING INFORMATION APPEARS BELOW:") ∧
      (d ≠ "" → s ≠ "" → ExceptionMessageFormatted.get ⟨t, d, s⟩ =
        pyUpper t ++ "\n" ++ ("DETAILS:\n" ++ d ++ "\n\n")
          ++ ("SUGGESTIONS:\n" ++ s ++ "\n\n")
          ++ "TRACING INFORMATION APPEARS BELOW:") := by
  intro t d s
  refine ⟨?_, fun hd => ?_, fun hs => ?_, fun hd hs => ?_⟩
  · simp [ExceptionMessageFormatted.get, String.append_assoc]
  · simp [ExceptionMessageFormatted.get, hd, String.append_assoc]
  · simp [ExceptionMessageFormatted.get, hs, String.append_assoc]
  · simp [ExceptionMessageFormatted.get, hd, hs, String.append_assoc]

/-- C6 witness: both sections render for concrete non-empty fields. -/
theorem C6_banner_sections_witness :
    ExceptionMessageFormatted.get ⟨"t", "d", "s"⟩ =
      pyUpper "t" ++ "\n" ++ ("DETAILS:\n" ++ "d" ++ "\n\n")
        ++ ("SUGGESTIONS:\n" ++ "s" ++ "\n\n")
        ++ "TRACING INFORMATION APPEARS BELOW:" :=
  (C6_banner_sections "t" "d" "s").2.2.2 (by decide) (by decide)

/-- C9: for primitive-ish values (boolean, byte sequence, integer, float,
text, list, tuple, None) the rendering is a single inline string
`name (type): value`; for every other value it is a multi-line block whose
second line onward is produced by the pretty-printer configured with
indent 4, width 160, and keys in insertion order (sort_dicts false). -/
theorem C9_variable_dump :
    ∀ (pformat : PPConfig → PyValue → String) (name : String) (v : PyValue),
      (isPrimitiveIsh v = true →
        variable_value_message_get pformat name v =
          "🔎VarVal🔍 " ++ name ++ " (" ++ typeName v ++ "): " ++ pyStr v) ∧
      (isPrimitiveIsh v = false →
        variable_value_message_get pformat name v =
          "🔎VarVal🔍 " ++ name ++ " (" ++ typeName v ++ "):\n" ++ pformat pp v) ∧
      pp.indent = 4 ∧ pp.width = 160 ∧ pp.sort_dicts = false := by
  intro pformat name v
  refine ⟨fun h => ?_, fun h => ?_, rfl, rfl, rfl⟩ <;>
    simp [variable_value_message_get, h]

/-- C9 witness: the integer 5 renders inline with its name and value; a
dict renders as a block handed to the configured printer. -/
theorem C9_variable_dump_witness :
    variable_value_message_get (fun _ _ => "PRETTY") "x" (PyValue.int 5) =
      "🔎VarVal🔍 x (<class \x27int\x27>): 5" ∧
    variable_value_message_get (fun _ _ => "PRETTY") "d"
        (PyValue.dict [(PyValue.str "a", PyValue.int 1)]) =
      "🔎VarVal🔍 d (<class \x27dict\x27>):\nPRETTY" := by
  constructor
  · have h := (C9_variable_dump (fun _ _ => "PRETTY") "x" (PyValue.int 5)).1 rfl
    rw [h]
    simp only [typeName, pyStr, pyRepr]
    decide
  · have h := (C9_variable_dump (fun _ _ => "PRETTY") "d"
      (PyValue.dict [(PyValue.str "a", PyValue.int 1)])).2.1 rfl
    rw [h]
    decide

/-- C2: with a log file configured, one DEBUG record is delivered only to
the FYI file destination, one WARNING record is delivered to both the
ALERT file destination and the ALERT console destination; the file-bound
renderings carry the record's severity glyph (shown literally below),
while the console formats are independent of the glyph field. -/
theorem C2_routing :
    ∀ (p msg wmsg asctime nm th pr pa mo fu : String) (li : Nat) (ex : String),
      loggerEmit (setup (some p))
          ⟨10, "DEBUG", msg, asctime, nm, th, pr, pa, mo, fu, li, ex, ""⟩ =
        [(Dest.file p,
          "\n" ++ "⚪" ++ " " ++ msg ++ " \n" ++ asctime ++ " - " ++ nm ++ " - "
            ++ "DEBUG" ++ " \n")] ∧
      loggerEmit (setup (some p))
          ⟨30, "WARNING", wmsg, asctime, nm, th, pr, pa, mo, fu, li, ex, ""⟩ =
        [(Dest.file p,
          "\n" ++ "🟧" ++ " " ++ wmsg ++ " \n" ++ asctime ++ " - " ++ nm ++ " - "
            ++ "WARNING" ++ " \n" ++ th ++ " → " ++ pr ++ " \n" ++ pa
            ++ " \n→ " ++ mo ++ " → " ++ fu ++ " @ " ++ toString li
            ++ " \nEXCEPTION INFO: " ++ ex ++ " \n"),
         (Dest.stderr,
          "\n" ++ wmsg ++ " \n" ++ asctime ++ " - " ++ nm ++ " - " ++ "WARNING"
            ++ " \n" ++ th ++ " → " ++ pr ++ " \n" ++ pa
            ++ " \n→ " ++ mo ++ " → " ++ fu ++ " @ " ++ toString li
            ++ " \nEXCEPTION INFO: " ++ ex ++ " \n")] ∧
      (∀ (r : LogRecord) (g : String),
        fmt_stderr_alert { r with cntxt_flag := g } = fmt_stderr_alert r) ∧
      (∀ (r : LogRecord) (g : String),
        fmt_stderr_fyi { r with cntxt_flag := g } = fmt_stderr_fyi r) := by
  intro p msg wmsg asctime nm th pr pa mo fu li ex
  exact ⟨rfl, rfl, fun r g => rfl, fun r g => rfl⟩

/-- C3 counterexample: with end − start = 125.4567 s (125456700 µs), the
code outputs `2m 5s 456ms 699μs` — the microsecond remainder is computed
in binary64 float arithmetic as 699.9999999948... and `int()` truncates
it to 699 — so the claimed output `2m 5s 456ms 700µs` is wrong (in the
count, and in its U+00B5 micro sign: the code prints U+03BC). -/
theorem C3_counterexample :
    _get_elapsed ⟨⟨2026, 1, 1, 10, 0, 0, 0⟩, ⟨2026, 1, 1, 10, 2, 5, 456700⟩⟩ ≠
      "2m 5s 456ms 700µs" := by decide

/-- C3 (amended): the elapsed-time string decomposes the duration into
minutes, seconds, milliseconds and microseconds as successive remainders
computed in binary64 float arithmetic with int() truncation; for
end = start + 125.4567 s the output is `2m 5s 456ms 699μs` (the float
microsecond remainder lands just under 700 and truncates to 699; the unit
letter is the Greek small mu of the source). -/
theorem C3_elapsed_amended :
    ∀ ts : Timestamps,
      epochMicro ts.endTime - epochMicro ts.start = 125456700 →
      _get_elapsed ts = "2m 5s 456ms 699μs" := by
  intro ts h
  unfold _get_elapsed
  rw [h]
  decide

/-- C3 witness: a concrete pair of timestamps 125.4567 s apart. -/
theorem C3_elapsed_amended_witness :
    _get_elapsed ⟨⟨2026, 1, 1, 10, 0, 0, 0⟩, ⟨2026, 1, 1, 10, 2, 5, 456700⟩⟩ =
      "2m 5s 456ms 699μs" :=
  C3_elapsed_amended _ (by decide)

/-- C5 counterexample: when the source directory itself does not exist
(and hence lacks a `logs` subdirectory), construction fails with
FileNotFoundError from `os.mkdir` — missing parents are NOT created, so
the claimed creation "(including missing parents)" does not happen. -/
theorem C5_counterexample :
    Log_post_init "/app/main.py" "user" "system" "3.12" []
        ⟨2026, 1, 1, 0, 0, 0, 0⟩ ⟨2026, 1, 1, 0, 0, 0, 0⟩ ⟨[], [], []⟩ =
      .error .fileNotFound := rfl

/-- C5 (amended): constructing a session whose existing source directory
lacks a `logs` subdirectory creates exactly that subdirectory (parents
are never created — `os.mkdir` is used, and a missing source directory is
an error) and emits exactly one WARNING-level notice about the creation,
with the header banner emitted as the first record before the notice; if
the directory already exists, only the header is emitted. -/
theorem C5_logs_dir_creation :
    ∀ (mfp user system pyver : String) (args : List String) (start endT : Datetime) (fs : FS),
      pyDirname (pathJoin (pyDirname mfp) "logs") ∈ fs.dirs →
      (os_path_exists (pathJoin (pyDirname mfp) "logs") fs = false →
        Log_post_init mfp user system pyver args start endT fs =
          .ok (set_info user system pyver args ⟨start, endT⟩ mfp,
               { fs with dirs := pathJoin (pyDirname mfp) "logs" :: fs.dirs },
               [(20, _get_header (set_info user system pyver args ⟨start, endT⟩ mfp)),
                (30, post_init_notice (pyDirname mfp))])) ∧
      (os_path_exists (pathJoin (pyDirname mfp) "logs") fs = true →
        Log_post_init mfp user system pyver args start endT fs =
          .ok (set_info user system pyver args ⟨start, endT⟩ mfp, fs,
               [(20, _get_header (set_info user system pyver args ⟨start, endT⟩ mfp))])) := by
  intro mfp user system pyver args start endT fs hparent
  constructor
  · intro habsent
    simp [Log_post_init, os_mkdir, habsent, hparent, set_info, post_init_notice]
  · intro hexists
    simp [Log_post_init, hexists, set_info]

/-- C5 witness: for a fresh `/app` source directory the logs directory is
created and the header precedes the single WARNING notice; when it
already exists, only the header is emitted. -/
theorem C5_logs_dir_creation_witness :
    (Log_post_init "/app/test.py" "u" "os" "3.12" []
        ⟨2026, 1, 1, 0, 0, 0, 0⟩ ⟨2026, 1, 1, 0, 0, 0, 0⟩ ⟨["/app"], [], []⟩ =
      .ok (set_info "u" "os" "3.12" []
             ⟨⟨2026, 1, 1, 0, 0, 0, 0⟩, ⟨2026, 1, 1, 0, 0, 0, 0⟩⟩ "/app/test.py",
           ⟨["/app/logs", "/app"], [], []⟩,
           [(20, _get_header (set_info "u" "os" "3.12" []
               ⟨⟨2026, 1, 1, 0, 0, 0, 0⟩, ⟨2026, 1, 1, 0, 0, 0, 0⟩⟩ "/app/test.py")),
            (30, post_init_notice (pyDirname "/app/test.py"))])) ∧
    (Log_post_init "/app/test.py" "u" "os" "3.12" []
        ⟨2026, 1, 1, 0, 0, 0, 0⟩ ⟨2026, 1, 1, 0, 0, 0, 0⟩ ⟨["/app/logs", "/app"], [], []⟩ =
      .ok (set_info "u" "os" "3.12" []
             ⟨⟨2026, 1, 1, 0, 0, 0, 0⟩, ⟨2026, 1, 1, 0, 0, 0, 0⟩⟩ "/app/test.py",
           ⟨["/app/logs", "/app"], [], []⟩,
           [(20, _get_header (set_info "u" "os" "3.12" []
               ⟨⟨2026, 1, 1, 0, 0, 0, 0⟩, ⟨2026, 1, 1, 0, 0, 0, 0⟩⟩ "/app/test.py"))])) :=
  ⟨(C5_logs_dir_creation "/app/test.py" "u" "os" "3.12" [] _ _ _ (by decide)).1 (by decide),
   (C5_logs_dir_creation "/app/test.py" "u" "os" "3.12" [] _ _ _ (by decide)).2 (by decide)⟩

/-- C8: terminating with no final directory emits exactly the footer with
the "Final log directory not specified" note and the original
`<sourceDirectory>/logs` path, attempts no copy, and leaves the
filesystem unchanged. -/
theorem C8_terminate_no_final_dir :
    ∀ (now : Datetime) (info : ExecInfo) (fs : FS),
      terminate now info fs none =
        ⟨{ info with
             timestamps := { info.timestamps with endTime := now },
             directories := { info.directories with final := none } },
         [(20,
           "========== ENDING ==========\n"
             ++ "*** Final log directory not specified. ***\n"
             ++ "\n" ++ "LOG: "
             ++ pathJoin (pathJoin info.directories.initial "logs")
                  (info.module_basename ++ "_" ++ strftime_YmdHMS info.timestamps.start
                    ++ os_extsep ++ "log")
             ++ "\n"
             ++ "\n" ++ "  END: " ++ isoformat now ++ "\n"
             ++ "- START: " ++ isoformat info.timestamps.start ++ "\n"
             ++ "= ELAPSED: "
             ++ elapsedFromMicro (epochMicro now - epochMicro info.timestamps.start))],
         none, .ok fs⟩ := by
  intro now info fs
  rfl

/-- Unfolding lemma: file lookup on a cons checks the head path first. -/
theorem lookupFile_cons (p : String) (e : String × String) (files : List (String × String)) :
    lookupFile p (e :: files) = if e.1 == p then some e.2 else lookupFile p files := by
  by_cases h : (e.1 == p) = true
  · simp [lookupFile, List.find?, h]
  · simp [lookupFile, List.find?, h]

/-- Updating the end timestamp does not change the resolved log path,
which reads only the directories, base name and start time. -/
theorem get_filepathname_endTime_update (info : ExecInfo) (now : Datetime) :
    _get_filepathname
        { info with timestamps := { info.timestamps with endTime := now } } =
      _get_filepathname info := rfl

/-- C7: terminating with a final directory emits the footer first (the
footer record is present whatever the copy outcome), then performs exactly
one `shutil.copy` of the log file to the directory whose result —
including FileNotFoundError for a missing target and PermissionError for
a read-only target — is propagated to the caller unhandled; on success
the source file is copied, not moved: it is still present alongside the
new copy. -/
theorem C7_terminate_copy :
    ∀ (now : Datetime) (info : ExecInfo) (fs : FS) (d : String),
      (terminate now info fs (some d)).records =
        [(20, _get_footer
          { info with
              timestamps := { info.timestamps with endTime := now },
              directories := { info.directories with final := some d } })] ∧
      (terminate now info fs (some d)).copySrc = some (_get_filepathname info) ∧
      (terminate now info fs (some d)).fsResult = shutil_copy (_get_filepathname info) d fs ∧
      (∀ c, lookupFile (_get_filepathname info) fs.files = some c →
        d ∈ fs.dirs → d ∉ fs.readonlyDirs →
        (terminate now info fs (some d)).fsResult =
          .ok { fs with
                  files := (pathJoin d (pyBasename (_get_filepathname info)), c) :: fs.files } ∧
        lookupFile (_get_filepathname info)
            ((pathJoin d (pyBasename (_get_filepathname info)), c) :: fs.files) = some c) ∧
      (lookupFile (_get_filepathname info) fs.files = none →
        (terminate now info fs (some d)).fsResult = .error .fileNotFound) ∧
      (∀ c, lookupFile (_get_filepathname info) fs.files = some c →
        d ∉ fs.dirs → pyDirname d ∉ fs.dirs →
        (terminate now info fs (some d)).fsResult = .error .fileNotFound) ∧
      (∀ c, lookupFile (_get_filepathname info) fs.files = some c →
        d ∈ fs.dirs → d ∈ fs.readonlyDirs →
        (terminate now info fs (some d)).fsResult = .error .permissionDenied) := by
  intro now info fs d
  refine ⟨rfl, rfl, rfl, ?_, ?_, ?_, ?_⟩
  · intro c hc hdir hro
    constructor
    · simp [terminate, shutil_copy, get_filepathname_endTime_update, hc, hdir, hro]
    · rw [lookupFile_cons]
      cases hb : (pathJoin d (pyBasename (_get_filepathname info)) == _get_filepathname info) <;>
        simp [hb, hc]
  · intro hnone
    simp [terminate, shutil_copy, get_filepathname_endTime_update, hnone]
  · intro c hc hdir hparent
    simp [terminate, shutil_copy, get_filepathname_endTime_update, hc, hdir, hparent]
  · intro c hc hdir hro
    simp [terminate, shutil_copy, get_filepathname_endTime_update, hc, hdir, hro]

/-- C7 witness: a concrete successful copy keeps the original file and
adds the copy; a concrete read-only target propagates PermissionError. -/
theorem C7_terminate_copy_witness :
    (terminate ⟨2026, 1, 1, 11, 0, 0, 0⟩
        ⟨"test", [], ⟨"/app", none⟩, "u", "s", "v",
          ⟨⟨2026, 1, 1, 10, 0, 0, 0⟩, ⟨2026, 1, 1, 10, 0, 0, 0⟩⟩⟩
        ⟨["/app", "/app/logs", "/final"], [],
          [("/app/logs/test_20260101100000.log", "data")]⟩
        (some "/final")).fsResult =
      .ok ⟨["/app", "/app/logs", "/final"], [],
           [("/final/test_20260101100000.log", "data"),
            ("/app/logs/test_20260101100000.log", "data")]⟩ ∧
    (terminate ⟨2026, 1, 1, 11, 0, 0, 0⟩
        ⟨"test", [], ⟨"/app", none⟩, "u", "s", "v",
          ⟨⟨2026, 1, 1, 10, 0, 0, 0⟩, ⟨2026, 1, 1, 10, 0, 0, 0⟩⟩⟩
        ⟨["/app", "/app/logs", "/final"], ["/final"],
          [("/app/logs/test_20260101100000.log", "data")]⟩
        (some "/final")).fsResult =
      .error .permissionDenied := by
  constructor
  · have h := ((C7_terminate_copy ⟨2026, 1, 1, 11, 0, 0, 0⟩
      ⟨"test", [], ⟨"/app", none⟩, "u", "s", "v",
        ⟨⟨2026, 1, 1, 10, 0, 0, 0⟩, ⟨2026, 1, 1, 10, 0, 0, 0⟩⟩⟩
      ⟨["/app", "/app/logs", "/final"], [],
        [("/app/logs/test_20260101100000.log", "data")]⟩
      "/final").2.2.2.1 "data" (by decide) (by decide) (by decide)).1
    exact h.trans (by rfl)
  · exact (C7_terminate_copy ⟨2026, 1, 1, 11, 0, 0, 0⟩
      ⟨"test", [], ⟨"/app", none⟩, "u", "s", "v",
        ⟨⟨2026, 1, 1, 10, 0, 0, 0⟩, ⟨2026, 1, 1, 10, 0, 0, 0⟩⟩⟩
      ⟨["/app", "/app/logs", "/final"], ["/final"],
        [("/app/logs/test_20260101100000.log", "data")]⟩
      "/final").2.2.2.2.2.2 "data" (by decide) (by decide) (by decide)

/-- C10: when a session whose final directory is still unset terminates
with directory d, the copy source path is computed before d is recorded,
so it names the original `<sourceDirectory>/logs` location, while the
footer's LOG line is rendered after d is recorded, so it reports the path
under d — and those are different paths whenever d differs from the
original logs directory. -/
theorem C10_copy_source_vs_footer :
    ∀ (now : Datetime) (info : ExecInfo) (fs : FS) (d : String),
      info.directories.final = none →
      (terminate now info fs (some d)).copySrc =
        some (pathJoin (pathJoin info.directories.initial "logs")
          (info.module_basename ++ "_" ++ strftime_YmdHMS info.timestamps.start
            ++ os_extsep ++ "log")) ∧
      ((terminate now info fs (some d)).records =
        [(20,
          "========== ENDING ==========\n"
            ++ "Log copied to specified directory.\n"
            ++ "\n" ++ "LOG: "
            ++ pathJoin d (info.module_basename ++ "_"
                ++ strftime_YmdHMS info.timestamps.start ++ os_extsep ++ "log")
            ++ "\n"
            ++ "\n" ++ "  END: " ++ isoformat now ++ "\n"
            ++ "- START: " ++ isoformat info.timestamps.start ++ "\n"
            ++ "= ELAPSED: "
            ++ elapsedFromMicro (epochMicro now - epochMicro info.timestamps.start))]) ∧
      (d ≠ pathJoin info.directories.initial "logs" →
        pathJoin (pathJoin info.directories.initial "logs")
            (info.module_basename ++ "_" ++ strftime_YmdHMS info.timestamps.start
              ++ os_extsep ++ "log") ≠
          pathJoin d (info.module_basename ++ "_"
            ++ strftime_YmdHMS info.timestamps.start ++ os_extsep ++ "log")) := by
  intro now info fs d hfinal
  refine ⟨?_, ?_, ?_⟩
  · simp [terminate, _get_filepathname, hfinal, pathJoin]
  · rfl
  · intro hne heq
    exact hne (pathJoin_left_inj heq).symm

/-- C10 witness: for a concrete session the copy source is the original
logs path while the footer reports the final-directory path, and the two
differ. -/
theorem C10_copy_source_vs_footer_witness :
    (terminate ⟨2026, 1, 1, 11, 0, 0, 0⟩
        ⟨"test", [], ⟨"/app", none⟩, "u", "s", "v",
          ⟨⟨2026, 1, 1, 10, 0, 0, 0⟩, ⟨2026, 1, 1, 10, 0, 0, 0⟩⟩⟩
        ⟨[], [], []⟩ (some "/final")).copySrc =
      some (pathJoin (pathJoin "/app" "logs")
        ("test" ++ "_" ++ strftime_YmdHMS ⟨2026, 1, 1, 10, 0, 0, 0⟩ ++ os_extsep ++ "log")) ∧
    pathJoin (pathJoin "/app" "logs")
        ("test" ++ "_" ++ strftime_YmdHMS ⟨2026, 1, 1, 10, 0, 0, 0⟩ ++ os_extsep ++ "log") ≠
      pathJoin "/final"
        ("test" ++ "_" ++ strftime_YmdHMS ⟨2026, 1, 1, 10, 0, 0, 0⟩ ++ os_extsep ++ "log") :=
  ⟨(C10_copy_source_vs_footer ⟨2026, 1, 1, 11, 0, 0, 0⟩
      ⟨"test", [], ⟨"/app", none⟩, "u", "s", "v",
        ⟨⟨2026, 1, 1, 10, 0, 0, 0⟩, ⟨2026, 1, 1, 10, 0, 0, 0⟩⟩⟩
      ⟨[], [], []⟩ "/final" rfl).1,
   (C10_copy_source_vs_footer ⟨2026, 1, 1, 11, 0, 0, 0⟩
      ⟨"test", [], ⟨"/app", none⟩, "u", "s", "v",
        ⟨⟨2026, 1, 1, 10, 0, 0, 0⟩, ⟨2026, 1, 1, 10, 0, 0, 0⟩⟩⟩
      ⟨[], [], []⟩ "/final" rfl).2.2 (by decide)⟩
